import Mathlib

/-!
Shallow embedding of `src/aws/dx_vif.go` (Direct Connect virtual interface
glue of the terraform AWS provider) together with the generic
state-convergence poller the file drives (`resource.StateChangeConf` /
`WaitForState` of the helper library, which is not among the source files and
is therefore modelled from the spec).

Conventions of the embedding:
  - Go strings are `String`; Go `*string` is `Option String` and
    `aws.StringValue` is `stringValue`.
  - A Go `error` value is `GoError`: either an AWS API error carrying a code
    and a message, or any other error carrying only a message.
  - A fallible API call is `Except GoError α`: the describe call yields
    `Except GoError (List VirtualInterface)`, the delete call's outcome is
    `Option GoError` (`none` = the call succeeded).
  - Functions that in Go return `(value, error)` return the pair explicitly.
  - Durations are natural numbers of seconds; the source's
    `10 * time.Second` delay and `5 * time.Second` minimum interval become
    `10` and `5`.
-/

/-- `List.isPrefixOf` on raw character lists, kept explicit so that every
string test in the development reduces in the kernel. -/
def charListIsPrefixOf : List Char → List Char → Bool
  | [], _ => true
  | _ :: _, [] => false
  | a :: as, b :: bs => a == b && charListIsPrefixOf as bs

/-- Whether `sub` occurs as a contiguous run inside the second list. -/
def charListContainsSub (sub : List Char) : List Char → Bool
  | [] => sub.isEmpty
  | c :: rest => charListIsPrefixOf sub (c :: rest) || charListContainsSub sub rest

/-- Go's `strings.Contains s sub`. -/
def stringsContains (s sub : String) : Bool :=
  charListContainsSub sub.data s.data

/-- A Go `error` as the file sees one: an AWS API error (an `awserr.Error`
with a code and a message) or any other error. -/
inductive GoError where
  | awsError (code message : String)
  | otherError (message : String)
deriving DecidableEq

/-- Modelled from the spec: the provider helper `isAWSErr` (declared outside
the given source files) classifies an error as a given AWS failure when it is
an AWS API error whose code equals `code` and whose message contains
`message`; any other error does not match. -/
def isAWSErr (err : GoError) (code message : String) : Bool :=
  match err with
  | .awsError c m => c == code && stringsContains m message
  | .otherError _ => false

/-- `err.Error()`: the message the file interpolates into its own errors. -/
def goErrString : GoError → String
  | .awsError c m => c ++ ": " ++ m
  | .otherError m => m

/-- SDK constant `directconnect.VirtualInterfaceStateAvailable`. -/
def VirtualInterfaceStateAvailable : String := "available"

/-- SDK constant `directconnect.VirtualInterfaceStateConfirming`. -/
def VirtualInterfaceStateConfirming : String := "confirming"

/-- SDK constant `directconnect.VirtualInterfaceStateDeleted`. -/
def VirtualInterfaceStateDeleted : String := "deleted"

/-- SDK constant `directconnect.VirtualInterfaceStateDeleting`. -/
def VirtualInterfaceStateDeleting : String := "deleting"

/-- SDK constant `directconnect.VirtualInterfaceStateDown`. -/
def VirtualInterfaceStateDown : String := "down"

/-- SDK constant `directconnect.VirtualInterfaceStatePending`. -/
def VirtualInterfaceStatePending : String := "pending"

/-- SDK constant `directconnect.VirtualInterfaceStateRejected`. -/
def VirtualInterfaceStateRejected : String := "rejected"

/-- SDK constant `directconnect.VirtualInterfaceStateVerifying`. -/
def VirtualInterfaceStateVerifying : String := "verifying"

/-- SDK constant `directconnect.ConnectionStateDeleted` (the constant the
source returns for an empty describe result; its value, like
`VirtualInterfaceStateDeleted`, is the string "deleted"). -/
def ConnectionStateDeleted : String := "deleted"

/-- `directconnect.VirtualInterface`, restricted to the one field the
polling and read paths inspect (`*string`, hence `Option String`). -/
structure VirtualInterface where
  VirtualInterfaceState : Option String
deriving DecidableEq

/-- `aws.StringValue`: dereference a `*string`, with "" for `nil`. -/
def stringValue : Option String → String
  | some s => s
  | none => ""

/-- `isNoSuchDxVirtualInterfaceErr` of the source file. -/
def isNoSuchDxVirtualInterfaceErr (err : GoError) : Bool :=
  isAWSErr err "DirectConnectClientException" "does not exist"

/-- The triple a `resource.StateRefreshFunc` returns:
`(interface{}, string, error)`. -/
structure RefreshResult where
  obj : Option VirtualInterface
  state : String
  error : Option GoError
deriving DecidableEq

/-- `dxVirtualInterfaceStateRefresh` of the source file, as a function of the
describe call's outcome (the closure's one external query):
a failing describe that is the not-found error maps to
`(nil, VirtualInterfaceStateDeleted, nil)`, any other failure propagates as
`(nil, "", err)`; a successful describe with fewer than one virtual interface
maps to `(nil, ConnectionStateDeleted, nil)`, and otherwise the first virtual
interface and its state are returned. -/
def dxVirtualInterfaceStateRefresh
    (resp : Except GoError (List VirtualInterface)) : RefreshResult :=
  match resp with
  | .error e =>
      if isNoSuchDxVirtualInterfaceErr e then
        ⟨none, VirtualInterfaceStateDeleted, none⟩
      else
        ⟨none, "", some e⟩
  | .ok [] => ⟨none, ConnectionStateDeleted, none⟩
  | .ok (vif :: _) => ⟨some vif, stringValue vif.VirtualInterfaceState, none⟩

/-- The `terminalStates` map of `dxVirtualInterfaceRead` (its keys). -/
def terminalStates : List String :=
  [VirtualInterfaceStateDeleted, VirtualInterfaceStateDeleting,
   VirtualInterfaceStateRejected]

/-- What `dxVirtualInterfaceRead` leaves behind: the returned virtual
interface, the returned error, and the resource identifier after the call
(`d.SetId("")` clears it; otherwise it keeps its prior value). -/
structure ReadOutcome where
  vif : Option VirtualInterface
  err : Option String
  resourceId : String
deriving DecidableEq

/-- `dxVirtualInterfaceRead` of the source file, as a function of the
describe outcome its refresh call sees and of the current resource
identifier. A refresh error is wrapped and returned with the identifier
unchanged; a state among `terminalStates` clears the identifier and returns
`(nil, nil)`; otherwise the refreshed object (the `interface{}` result cast
back to `*directconnect.VirtualInterface`) is returned unchanged. -/
def dxVirtualInterfaceRead
    (resp : Except GoError (List VirtualInterface)) (rid : String) :
    ReadOutcome :=
  let r := dxVirtualInterfaceStateRefresh resp
  match r.error with
  | some e =>
      ⟨none, some ("Error reading Direct Connect virtual interface: "
        ++ goErrString e), rid⟩
  | none =>
      if terminalStates.contains r.state then ⟨none, none, ""⟩
      else ⟨r.obj, none, rid⟩

/-- The errors the poller can resolve with (the helper library's refresh
error propagation, `UnexpectedStateError` and timeout). -/
inductive PollError where
  | refreshError (e : GoError)
  | unexpectedStateError (state : String)
  | timeoutError
deriving DecidableEq

/-- The caller-facing fields of a `resource.StateChangeConf`:
`Pending`, `Target`, `Timeout`, `Delay` (initial delay) and `MinTimeout`
(minimum interval between attempts), durations in seconds. -/
structure PollSpec where
  pending : List String
  target : List String
  timeout : Nat
  initialDelay : Nat
  minInterval : Nat
deriving DecidableEq

/-- What one poll invocation did: its result (the final object on success,
the classified error otherwise), how many refresh attempts it made, and the
total time it spent sleeping. -/
structure PollOutcome where
  result : Except PollError (Option VirtualInterface)
  refreshCalls : Nat
  sleptTime : Nat

/-- Modelled from the spec: steps 2-4 of the poller loop (the helper
library's `WaitForState` is not among the source files). Each iteration
invokes the refresh function once; an error propagates immediately, a state
in `target` resolves with the object, a state in neither set fails with
`UnexpectedStateError` naming it, and a state in `pending` sleeps the
minimum interval (the smallest adaptive interval the spec allows) and
retries, failing with the timeout error once the cumulative elapsed time
would exceed the budget. `fuel` bounds the recursion; the caller supplies
more fuel than iterations the timeout admits, so the fuel fallback (also a
timeout failure) is unreachable for a positive minimum interval. -/
def pollLoop (ps : PollSpec) (refreshFn : Nat → RefreshResult) :
    Nat → Nat → Nat → PollOutcome
  | _, _, 0 => ⟨Except.error PollError.timeoutError, 0, 0⟩
  | attempt, elapsed, fuel + 1 =>
      let r := refreshFn attempt
      match r.error with
      | some e => ⟨Except.error (PollError.refreshError e), 1, 0⟩
      | none =>
          if ps.target.contains r.state then
            ⟨Except.ok r.obj, 1, 0⟩
          else if ps.pending.contains r.state then
            if ps.timeout < elapsed + ps.minInterval then
              ⟨Except.error PollError.timeoutError, 1, 0⟩
            else
              let rest := pollLoop ps refreshFn (attempt + 1)
                (elapsed + ps.minInterval) fuel
              ⟨rest.result, rest.refreshCalls + 1,
                rest.sleptTime + ps.minInterval⟩
          else
            ⟨Except.error (PollError.unexpectedStateError r.state), 1, 0⟩

/-- Modelled from the spec: `Poll(spec, refreshFn)`. Step 1 waits the
initial delay (the source configures `Delay: 10 * time.Second` on both of
its `StateChangeConf` values), then the loop runs; the refresh function is
indexed by the attempt number. -/
def Poll (ps : PollSpec) (refreshFn : Nat → RefreshResult) : PollOutcome :=
  let o := pollLoop ps refreshFn 0 ps.initialDelay (ps.timeout + 1)
  ⟨o.result, o.refreshCalls, o.sleptTime + ps.initialDelay⟩

/-- The `deleteStateConf` the source builds in `dxVirtualInterfaceDelete`:
all non-deleted lifecycle states pending, the deleted state the target,
`Timeout` the resource's delete timeout, `Delay` 10s, `MinTimeout` 5s. -/
def dxVirtualInterfaceDeleteStateConf (timeout : Nat) : PollSpec :=
  ⟨[VirtualInterfaceStateAvailable, VirtualInterfaceStateConfirming,
    VirtualInterfaceStateDeleting, VirtualInterfaceStateDown,
    VirtualInterfaceStatePending, VirtualInterfaceStateRejected,
    VirtualInterfaceStateVerifying],
   [VirtualInterfaceStateDeleted],
   timeout, 10, 5⟩

/-- The `stateConf` the source builds in
`dxVirtualInterfaceWaitUntilAvailable`: the pending and target sets are the
caller's arguments, `Timeout` the resource's create timeout, `Delay` 10s,
`MinTimeout` 5s. -/
def dxVirtualInterfaceWaitUntilAvailableConf
    (pending target : List String) (timeout : Nat) : PollSpec :=
  ⟨pending, target, timeout, 10, 5⟩

/-- The message of a resolved poll error, as the helper library would render
it (only its presence, never its text, is load-bearing below). -/
def pollErrString : PollError → String
  | .refreshError e => goErrString e
  | .unexpectedStateError s => "unexpected state " ++ s
  | .timeoutError => "timeout while waiting for state"

/-- `dxVirtualInterfaceDelete` of the source file, as a function of the
delete call's outcome and of the refresh results the subsequent wait
observes. A failing delete call returns `nil` when the failure is the
not-found error and a wrapped error otherwise; after a successful delete
call the delete state poll runs, a poll failure is wrapped, and success
returns `nil`. -/
def dxVirtualInterfaceDelete (vifId : String) (deleteErr : Option GoError)
    (refreshFn : Nat → RefreshResult) (timeout : Nat) : Option String :=
  match deleteErr with
  | some e =>
      if isNoSuchDxVirtualInterfaceErr e then none
      else some ("Error deleting Direct Connect virtual interface: "
        ++ goErrString e)
  | none =>
      match (Poll (dxVirtualInterfaceDeleteStateConf timeout) refreshFn).result with
      | .ok _ => none
      | .error pe =>
          some ("Error waiting for Direct Connect virtual interface ("
            ++ vifId ++ ") to be deleted: " ++ pollErrString pe)

/-- `directconnect.RouteFilterPrefix`, restricted to its `Cidr *string`
field. -/
structure RouteFilterPrefix where
  Cidr : Option String
deriving DecidableEq

/-- `expandDxRouteFilterPrefixes` of the source file: one
`RouteFilterPrefix` per configured CIDR string, in order (the Go input is a
`[]interface{}` whose elements are asserted to be strings, so the embedding
takes the list of those strings). -/
def expandDxRouteFilterPrefixes (cfg : List String) : List RouteFilterPrefix :=
  cfg.map (fun p => RouteFilterPrefix.mk (some p))

/-- `flattenDxRouteFilterPrefixes` of the source file: the dereferenced CIDR
strings collected into a `schema.Set` (modelled as a `Finset String`: the
set forgets order and duplicates; hash collisions of `schema.HashString` are
out of scope). -/
def flattenDxRouteFilterPrefixes (prefixes : List RouteFilterPrefix) :
    Finset String :=
  (prefixes.map (fun p => stringValue p.Cidr)).toFinset

/-! ## Step lemmas for the poller loop -/

/-- A refresh attempt that returns an error stops the loop at once: one
refresh call, no sleep, the error propagated. -/
theorem pollLoop_error_step (ps : PollSpec) (f : Nat → RefreshResult)
    (attempt elapsed fuel : Nat) (e : GoError)
    (h : (f attempt).error = some e) :
    pollLoop ps f attempt elapsed (fuel + 1)
      = ⟨Except.error (PollError.refreshError e), 1, 0⟩ := by
  simp only [pollLoop, h]

/-- A refresh attempt whose state lies in the target set resolves the loop
at once with that attempt's object: one refresh call, no sleep. -/
theorem pollLoop_target_step (ps : PollSpec) (f : Nat → RefreshResult)
    (attempt elapsed fuel : Nat)
    (herr : (f attempt).error = none)
    (ht : ps.target.contains (f attempt).state = true) :
    pollLoop ps f attempt elapsed (fuel + 1)
      = ⟨Except.ok (f attempt).obj, 1, 0⟩ := by
  simp only [pollLoop, herr, ht, if_true]

/-- A refresh attempt whose state lies in neither set fails the loop at once
with the unexpected-state error naming that state: one refresh call, no
sleep, whatever time budget remains. -/
theorem pollLoop_unexpected_step (ps : PollSpec) (f : Nat → RefreshResult)
    (attempt elapsed fuel : Nat)
    (herr : (f attempt).error = none)
    (hnt : ps.target.contains (f attempt).state = false)
    (hnp : ps.pending.contains (f attempt).state = false) :
    pollLoop ps f attempt elapsed (fuel + 1)
      = ⟨Except.error (PollError.unexpectedStateError (f attempt).state),
         1, 0⟩ := by
  simp only [pollLoop, herr, hnt, hnp, Bool.false_eq_true, if_false]

/-- A first refresh whose state lies in the target set resolves the whole
poll after one refresh call; the only sleep is the initial delay. -/
theorem poll_target_first (ps : PollSpec) (f : Nat → RefreshResult)
    (herr : (f 0).error = none)
    (ht : ps.target.contains (f 0).state = true) :
    Poll ps f = ⟨Except.ok ((f 0).obj), 1, ps.initialDelay⟩ := by
  simp only [Poll, pollLoop_target_step ps f 0 ps.initialDelay ps.timeout herr ht,
    Nat.zero_add]

/-! ## The claims -/

/-- C1: a refresh whose describe query succeeds but returns an empty list of
virtual interfaces yields the terminal "deleted" state label with no object
and no error. -/
theorem refresh_empty_result_is_deleted :
    dxVirtualInterfaceStateRefresh (Except.ok [])
      = ⟨none, VirtualInterfaceStateDeleted, none⟩ := rfl

/-- C2: a refresh whose describe query fails with the "resource not found"
error yields the terminal "deleted" state label with no object and no error,
instead of propagating the error. -/
theorem refresh_not_found_error_is_deleted (e : GoError)
    (h : isNoSuchDxVirtualInterfaceErr e = true) :
    dxVirtualInterfaceStateRefresh (Except.error e)
      = ⟨none, VirtualInterfaceStateDeleted, none⟩ := by
  simp [dxVirtualInterfaceStateRefresh, h]

/-- Witness for C2 at the concrete not-found error of the Direct Connect
API. -/
theorem refresh_not_found_error_is_deleted_at_input :
    dxVirtualInterfaceStateRefresh (Except.error (GoError.awsError
      "DirectConnectClientException"
      "Virtual interface dxvif-1a2b3c4d does not exist"))
      = ⟨none, VirtualInterfaceStateDeleted, none⟩ :=
  refresh_not_found_error_is_deleted _ (by decide)

/-- C3 is refuted as stated: at the delete configuration (initial delay
10 s), a first refresh whose state lies in the target set still returns only
after the initial delay has been slept, so some sleep does occur before the
return. -/
theorem poll_first_target_no_sleep_refuted :
    (dxVirtualInterfaceDeleteStateConf 600).target.contains
        (dxVirtualInterfaceStateRefresh (Except.ok [])).state = true
    ∧ ¬ (Poll (dxVirtualInterfaceDeleteStateConf 600)
          (fun _ => dxVirtualInterfaceStateRefresh (Except.ok []))).sleptTime
        = 0 := by
  refine ⟨by decide, ?_⟩
  rw [poll_target_first (dxVirtualInterfaceDeleteStateConf 600)
    (fun _ => dxVirtualInterfaceStateRefresh (Except.ok [])) rfl (by decide)]
  decide

/-- C3 (amended): for every poll whose first refresh returns a state in the
target set, `Poll` resolves successfully with that refresh's object after
exactly one refresh call and with no inter-attempt interval slept; the
initial delay, however, is slept before the first refresh (10 s in this
file's configurations). -/
theorem poll_first_target_returns_after_initial_delay
    (ps : PollSpec) (f : Nat → RefreshResult)
    (herr : (f 0).error = none)
    (ht : ps.target.contains (f 0).state = true) :
    Poll ps f = ⟨Except.ok ((f 0).obj), 1, ps.initialDelay⟩ :=
  poll_target_first ps f herr ht

/-- Witness for the amended C3: a first refresh that observes the virtual
interface already in the "deleted" target state. -/
theorem poll_first_target_returns_after_initial_delay_at_input :
    Poll (dxVirtualInterfaceDeleteStateConf 600)
        (fun _ => dxVirtualInterfaceStateRefresh
          (Except.ok [VirtualInterface.mk (some "deleted")]))
      = ⟨Except.ok (some (VirtualInterface.mk (some "deleted"))), 1, 10⟩ :=
  poll_first_target_returns_after_initial_delay _ _ rfl (by decide)

/-- C4: a refresh attempt that fails with a transport/API error that is not
the not-found condition stops the poller at once: the loop makes exactly
that one refresh call, sleeps no further, and resolves with that error, at
whatever attempt and with whatever budget remains; in particular a first
such refresh fails the whole poll with one refresh call. -/
theorem poll_refresh_error_stops_polling
    (ps : PollSpec) (f : Nat → RefreshResult) (e : GoError)
    (hnf : isNoSuchDxVirtualInterfaceErr e = false) :
    (∀ attempt elapsed fuel : Nat,
        f attempt = dxVirtualInterfaceStateRefresh (Except.error e) →
        pollLoop ps f attempt elapsed (fuel + 1)
          = ⟨Except.error (PollError.refreshError e), 1, 0⟩)
    ∧ (f 0 = dxVirtualInterfaceStateRefresh (Except.error e) →
        Poll ps f
          = ⟨Except.error (PollError.refreshError e), 1, ps.initialDelay⟩) := by
  have herr : ∀ attempt : Nat,
      f attempt = dxVirtualInterfaceStateRefresh (Except.error e) →
      (f attempt).error = some e := by
    intro attempt hfa
    rw [hfa]
    simp [dxVirtualInterfaceStateRefresh, hnf]
  constructor
  · intro attempt elapsed fuel hfa
    exact pollLoop_error_step ps f attempt elapsed fuel e (herr attempt hfa)
  · intro h0
    simp only [Poll,
      pollLoop_error_step ps f 0 ps.initialDelay ps.timeout e (herr 0 h0),
      Nat.zero_add]

/-- Witness for C4 at a concrete transport error. -/
theorem poll_refresh_error_stops_polling_at_input :
    Poll (dxVirtualInterfaceDeleteStateConf 600)
        (fun _ => dxVirtualInterfaceStateRefresh
          (Except.error (GoError.otherError "connection reset")))
      = ⟨Except.error (PollError.refreshError
          (GoError.otherError "connection reset")), 1, 10⟩ :=
  (poll_refresh_error_stops_polling (dxVirtualInterfaceDeleteStateConf 600)
    _ _ (by decide)).2 rfl

/-- C5: a refresh that returns a state in neither the pending set nor the
target set fails the poller with the unexpected-state error naming that
state at that very observation — one refresh call, no further sleep — at
whatever attempt and with whatever time budget remains; in particular a
first such refresh fails the whole poll. -/
theorem poll_unexpected_state_fails_immediately
    (ps : PollSpec) (f : Nat → RefreshResult) :
    (∀ attempt elapsed fuel : Nat,
        (f attempt).error = none →
        ps.target.contains (f attempt).state = false →
        ps.pending.contains (f attempt).state = false →
        pollLoop ps f attempt elapsed (fuel + 1)
          = ⟨Except.error (PollError.unexpectedStateError (f attempt).state),
             1, 0⟩)
    ∧ ((f 0).error = none →
        ps.target.contains (f 0).state = false →
        ps.pending.contains (f 0).state = false →
        Poll ps f
          = ⟨Except.error (PollError.unexpectedStateError (f 0).state),
             1, ps.initialDelay⟩) := by
  constructor
  · intro attempt elapsed fuel herr hnt hnp
    exact pollLoop_unexpected_step ps f attempt elapsed fuel herr hnt hnp
  · intro herr hnt hnp
    simp only [Poll,
      pollLoop_unexpected_step ps f 0 ps.initialDelay ps.timeout herr hnt hnp,
      Nat.zero_add]

/-- Witness for C5: the delete poll observing a state outside both sets. -/
theorem poll_unexpected_state_fails_immediately_at_input :
    Poll (dxVirtualInterfaceDeleteStateConf 600)
        (fun _ => dxVirtualInterfaceStateRefresh
          (Except.ok [VirtualInterface.mk (some "unknown")]))
      = ⟨Except.error (PollError.unexpectedStateError "unknown"), 1, 10⟩ :=
  (poll_unexpected_state_fails_immediately _ _).2 rfl (by decide) (by decide)

/-- C6: when the resource is already absent at the first refresh — an empty
describe result, or the not-found error, both of which the refresh function
maps to the "deleted" state — the delete poll (whose target set is the
singleton "deleted") succeeds with no object. -/
theorem poll_delete_absent_resource_succeeds
    (t : Nat) (resp : Except GoError (List VirtualInterface))
    (habsent : resp = Except.ok ([] : List VirtualInterface)
      ∨ ∃ e, resp = Except.error e ∧ isNoSuchDxVirtualInterfaceErr e = true) :
    Poll (dxVirtualInterfaceDeleteStateConf t)
        (fun _ => dxVirtualInterfaceStateRefresh resp)
      = ⟨Except.ok none, 1, 10⟩ := by
  have hr : dxVirtualInterfaceStateRefresh resp
      = ⟨none, VirtualInterfaceStateDeleted, none⟩ := by
    rcases habsent with h | ⟨e, he, hnf⟩
    · rw [h]; rfl
    · rw [he]
      simp [dxVirtualInterfaceStateRefresh, hnf]
  have herr : (dxVirtualInterfaceStateRefresh resp).error = none := by rw [hr]
  have ht : (dxVirtualInterfaceDeleteStateConf t).target.contains
      (dxVirtualInterfaceStateRefresh resp).state = true := by
    rw [hr]; rfl
  rw [poll_target_first (dxVirtualInterfaceDeleteStateConf t)
    (fun _ => dxVirtualInterfaceStateRefresh resp) herr ht]
  simp [hr, dxVirtualInterfaceDeleteStateConf]

/-- Witness for C6 at the empty describe result. -/
theorem poll_delete_absent_resource_succeeds_at_input :
    Poll (dxVirtualInterfaceDeleteStateConf 600)
        (fun _ => dxVirtualInterfaceStateRefresh (Except.ok []))
      = ⟨Except.ok none, 1, 10⟩ :=
  poll_delete_absent_resource_succeeds 600 _ (Or.inl rfl)

/-- C7: a failing delete API call is swallowed (nil returned) exactly when
the failure is the "does not exist" not-found error; every other delete API
error is surfaced to the caller. -/
theorem delete_swallows_only_not_found_error
    (vifId : String) (e : GoError) (f : Nat → RefreshResult) (t : Nat) :
    dxVirtualInterfaceDelete vifId (some e) f t = none
      ↔ isNoSuchDxVirtualInterfaceErr e = true := by
  simp only [dxVirtualInterfaceDelete]
  cases h : isNoSuchDxVirtualInterfaceErr e <;> simp [h]

/-- C8 is refuted as stated: `dxVirtualInterfaceWaitUntilAvailable` also
constructs a PollSpec in this file, out of caller-supplied pending and
target sets, and nothing forces those apart — at overlapping arguments the
constructed spec's sets are not disjoint. -/
theorem wait_conf_overlapping_sets :
    ¬ List.Disjoint
        (dxVirtualInterfaceWaitUntilAvailableConf
          [VirtualInterfaceStatePending, VirtualInterfaceStateAvailable]
          [VirtualInterfaceStateAvailable] 600).pending
        (dxVirtualInterfaceWaitUntilAvailableConf
          [VirtualInterfaceStatePending, VirtualInterfaceStateAvailable]
          [VirtualInterfaceStateAvailable] 600).target := by
  intro h
  have hmem : VirtualInterfaceStateAvailable
      ∈ [VirtualInterfaceStatePending, VirtualInterfaceStateAvailable] := by
    simp
  have hmem2 : VirtualInterfaceStateAvailable
      ∈ [VirtualInterfaceStateAvailable] := by simp
  exact h hmem hmem2

/-- C8 (amended): the delete operation's PollSpec — pending the seven
non-deleted lifecycle states, target the singleton "deleted" — has disjoint
pending and target sets; the wait-until-available spec's sets are supplied
by its caller and are not constrained by this file. -/
theorem delete_conf_pending_target_disjoint (t : Nat) :
    List.Disjoint (dxVirtualInterfaceDeleteStateConf t).pending
      (dxVirtualInterfaceDeleteStateConf t).target := by
  intro a ha hb
  simp only [dxVirtualInterfaceDeleteStateConf, List.mem_singleton] at hb
  subst hb
  simp [dxVirtualInterfaceDeleteStateConf, VirtualInterfaceStateDeleted,
    VirtualInterfaceStateAvailable, VirtualInterfaceStateConfirming,
    VirtualInterfaceStateDeleting, VirtualInterfaceStateDown,
    VirtualInterfaceStatePending, VirtualInterfaceStateRejected,
    VirtualInterfaceStateVerifying] at ha

/-- C9: a read whose refresh succeeds clears the resource identifier and
returns a nil virtual interface with a nil error when the observed state is
one of deleted, deleting or rejected; otherwise it leaves the identifier
unchanged and returns the refreshed virtual interface object. -/
theorem read_terminal_clears_id_else_returns_vif
    (resp : Except GoError (List VirtualInterface)) (rid : String)
    (hok : (dxVirtualInterfaceStateRefresh resp).error = none) :
    (terminalStates.contains (dxVirtualInterfaceStateRefresh resp).state
        = true →
      dxVirtualInterfaceRead resp rid = ⟨none, none, ""⟩)
    ∧ (terminalStates.contains (dxVirtualInterfaceStateRefresh resp).state
        = false →
      dxVirtualInterfaceRead resp rid
        = ⟨(dxVirtualInterfaceStateRefresh resp).obj, none, rid⟩) := by
  constructor <;> intro h <;> simp at h <;>
    simp [dxVirtualInterfaceRead, hok, h]

/-- Witness for C9: the resource has vanished (empty describe result), so
the read clears the identifier and returns neither object nor error. -/
theorem read_terminal_clears_id_at_input :
    dxVirtualInterfaceRead (Except.ok []) "dxvif-1a2b3c4d"
      = ⟨none, none, ""⟩ :=
  (read_terminal_clears_id_else_returns_vif (Except.ok []) "dxvif-1a2b3c4d"
    rfl).1 (by decide)

/-- C10: expanding a list of CIDR strings preserves its length and its
per-index values (each entry becomes a route filter whose CIDR points at
that string), and flattening the expansion yields a set whose members are
exactly the strings of the input list, order forgotten and duplicates
collapsed. -/
theorem expand_flatten_route_filter_roundtrip (cfg : List String) :
    (expandDxRouteFilterPrefixes cfg).length = cfg.length
    ∧ (expandDxRouteFilterPrefixes cfg).map (fun p => p.Cidr) = cfg.map some
    ∧ ∀ s : String,
        s ∈ flattenDxRouteFilterPrefixes (expandDxRouteFilterPrefixes cfg)
          ↔ s ∈ cfg := by
  refine ⟨by simp [expandDxRouteFilterPrefixes],
    by simp [expandDxRouteFilterPrefixes], ?_⟩
  intro s
  simp [flattenDxRouteFilterPrefixes, expandDxRouteFilterPrefixes,
    stringValue, List.map_map, Function.comp]
